import Mathlib

/-!
Verification development for the CoopHub login backend.

The definitions below are a shallow embedding of the backend's login
pipeline: the two-tier in-memory rate limiter
(src/backend/src/middleware/rateLimitMiddleware.js), the input validators
and token utilities (src/backend/src/utils/securityUtils.js), the user
repository (src/backend/src/repositories/userRepository.js with
src/backend/src/data/users.js), the authentication service, the
controller/route composition and the error handler.

Modelling conventions:
- JavaScript `Date.now()` timestamps are natural numbers (milliseconds).
- The two module-level `Map`s are passed explicitly as functions
  `String → Option entry`; `Map.set` / `Map.delete` become pointwise
  updates.  JS `Map.get` returns a reference to the stored object, so an
  in-place mutation of a retrieved entry is modelled as an update of the
  store exactly when the retrieved entry came from the store.
- Values that may be `undefined` / non-strings in JS are `Option String`;
  the JS falsiness of the empty string is checked explicitly where the
  source uses `!x` on a string.
- Thrown errors become `Except` values; the service's catch/re-throw
  logic is translated into the corresponding match arms.
- bcrypt comparison is an oracle parameter `pwCheck : String → String →
  Bool` (plain password, stored hash), since the hash itself is an
  external library.
-/

/-- Pointwise-update model of JS `Map.set`. -/
def mapSet {α : Type} (m : String → Option α) (k : String) (v : α) :
    String → Option α :=
  fun j => if j = k then some v else m j

/-- Pointwise-update model of JS `Map.delete`. -/
def mapDelete {α : Type} (m : String → Option α) (k : String) :
    String → Option α :=
  fun j => if j = k then none else m j

/-- Model of JS `Math.ceil(a / b)` on non-negative integers. -/
def jsCeilDiv (a b : Nat) : Nat := (a + b - 1) / b

/-- Whitespace recognised by the model of `String.prototype.trim`
(the ASCII subset actually exercised by this repository). -/
def isJsWhitespace (c : Char) : Bool :=
  c = ' ' || c = '\t' || c = '\n' || c = '\r' || c = '\x0b' || c = '\x0c'

/-- Model of JS `String.prototype.trim`: drop leading and trailing
whitespace. -/
def jsTrim (s : String) : String :=
  String.mk (((s.data.dropWhile isJsWhitespace).reverse.dropWhile
    isJsWhitespace).reverse)

/-! ## Rate-limit configuration (RATE_LIMIT_CONFIG, rateLimitMiddleware.js) -/

/-- Maximum failed login attempts per identifier. -/
def MAX_FAILED_ATTEMPTS : Nat := 5

/-- Failed-attempt window: 5 minutes in milliseconds. -/
def FAILED_WINDOW_MS : Nat := 5 * 60 * 1000

/-- Maximum requests per IP per window. -/
def MAX_REQUESTS_PER_IP : Nat := 20

/-- IP request window: 60 seconds in milliseconds. -/
def IP_WINDOW_MS : Nat := 60 * 1000

/-! ## Input validation (securityUtils.js) -/

/-- Embedding of `validateInput` (securityUtils.js:92-104): requires a
string value that is truthy (so non-empty) and non-empty after trimming;
returns the trimmed string. -/
def validateInput (input : Option String) (fieldName : String) :
    Except String String :=
  match input with
  | none => Except.error (fieldName ++ " is required and must be a string")
  | some s =>
    if s = "" then
      Except.error (fieldName ++ " is required and must be a string")
    else
      let trimmed := jsTrim s
      if trimmed.length = 0 then
        Except.error (fieldName ++ " cannot be empty")
      else
        Except.ok trimmed

/-- Character class `[a-zA-Z0-9._@-]` of the identifier regex. -/
def identifierCharOk (c : Char) : Bool :=
  c.isAlpha || c.isDigit || c = '.' || c = '_' || c = '@' || c = '-'

/-- Model of the anchored regex test with
`/^[a-zA-Z0-9._@-]{3,50}$/` (securityUtils.js:120). -/
def matchesIdentifierPattern (s : String) : Bool :=
  decide (3 ≤ s.length) && decide (s.length ≤ 50) && s.data.all identifierCharOk

/-- Embedding of `validateIdentifier` (securityUtils.js:116-127):
`validateInput` first (which trims), then the regex test on the trimmed
string. -/
def validateIdentifier (identifier : Option String) : Except String String :=
  match validateInput identifier "identifier" with
  | Except.error e => Except.error e
  | Except.ok validated =>
    if matchesIdentifierPattern validated then Except.ok validated
    else Except.error "Invalid identifier format"

/-- Embedding of `validatePassword` (securityUtils.js:139-148). -/
def validatePassword (password : Option String) : Except String String :=
  match validateInput password "password" with
  | Except.error e => Except.error e
  | Except.ok validated =>
    if validated.length < 4 || validated.length > 128 then
      Except.error "Password must be between 4 and 128 characters"
    else
      Except.ok validated

/-! ## User store (data/users.js, repositories/userRepository.js) -/

/-- Record shape of the in-memory user store. -/
structure UserRecord where
  id : Nat
  username : String
  email : String
  password : String
deriving DecidableEq, Repr

/-- Seeded user dataset (data/users.js, bcrypt-hash snapshot). -/
def usersData : List UserRecord :=
  [ { id := 1, username := "john_doe", email := "john@example.com",
      password := "$2b$10$/abf7yy0Yl38cwy4iq/miuWXVf2B6aIwnfppzUaJ9.1dVnuwkWmWC" },
    { id := 2, username := "admin", email := "admin@example.com",
      password := "$2b$10$znPyWV6KOF2osRbuhiHhou9gdk7ZXnwhim7vsQu5q1EAa1/1T1Yk6" } ]

/-- Embedding of `findByUsernameOrEmail` (userRepository.js:6-8). -/
def findByUsernameOrEmail (users : List UserRecord) (identifier : String) :
    Option UserRecord :=
  users.find? (fun u => u.username == identifier || u.email == identifier)

/-! ## Token issue / verify (securityUtils.js:49-79) -/

/-- Claims carried by a token and returned in the login response body. -/
structure UserClaims where
  id : Nat
  username : String
  email : String
deriving DecidableEq, Repr

/-- Modelled from the spec: the external jsonwebtoken library's HMAC
signature over the payload (spec section 4.4, "signs claims plus
issuedAt/expiresAt using a server-held secret").  The cryptographic hash
itself is not in this repository; the model keeps exactly the property
the code relies on, that verification recomputes the signature from the
token fields plus the secret and compares. -/
def jwtSignature (p : UserClaims) (iat expSec : Nat) (secret : String) :
    String :=
  "hmac:" ++ toString p.id ++ ":" ++ p.username ++ ":" ++ p.email ++ ":"
    ++ toString iat ++ ":" ++ toString expSec ++ ":" ++ secret

/-- Signed token: payload plus issued-at / expiry (seconds) and the
signature. -/
structure SignedToken where
  payload : UserClaims
  iat : Nat
  expSec : Nat
  sig : String
deriving DecidableEq, Repr

/-- Default token lifetime: 24 hours (JWT_EXPIRATION default '24h'),
in seconds as used inside the token. -/
def JWT_EXPIRATION_SEC : Nat := 24 * 60 * 60

/-- Embedding of `generateToken` (securityUtils.js:49-58): fails when no
secret is configured, otherwise signs the payload with issued-at equal to
the current time and a 24h expiry. -/
def generateToken (secret : Option String) (payload : UserClaims)
    (nowMs : Nat) : Except String SignedToken :=
  match secret with
  | none => Except.error "JWT_SECRET not configured"
  | some s =>
    let iat := nowMs / 1000
    let expSec := iat + JWT_EXPIRATION_SEC
    Except.ok { payload := payload, iat := iat, expSec := expSec,
                sig := jwtSignature payload iat expSec s }

/-- Verification failure kinds (spec section 4.4 / jsonwebtoken). -/
inductive VerifyErr where
  | secretMissing
  | invalidToken
  | expiredToken
deriving DecidableEq, Repr

/-- Embedding of `verifyToken` (securityUtils.js:71-79) over the modelled
jsonwebtoken semantics: signature is checked first, then the expiry
(expired when the clock in seconds has reached `expSec`). -/
def verifyToken (secret : Option String) (t : SignedToken) (nowMs : Nat) :
    Except VerifyErr UserClaims :=
  match secret with
  | none => Except.error VerifyErr.secretMissing
  | some s =>
    if t.sig = jwtSignature t.payload t.iat t.expSec s then
      if t.expSec ≤ nowMs / 1000 then Except.error VerifyErr.expiredToken
      else Except.ok t.payload
    else Except.error VerifyErr.invalidToken

/-- Embedding of the server startup (server.js:13-20): reads the port
(defaulting to 4000) and starts listening.  No configuration check of any
kind is performed at startup; the secret argument is present to show that
startup does not consult it. -/
def startServer (secret : Option String) (port : Option Nat) :
    Except String Nat :=
  match secret, port with
  | _, some p => Except.ok p
  | _, none => Except.ok 4000

/-! ## Rate limiter state and gates (rateLimitMiddleware.js) -/

/-- Per-identifier failed-attempt counter entry. -/
structure AttemptEntry where
  attempts : Nat
  resetTime : Nat
deriving DecidableEq, Repr

/-- Per-IP request counter entry. -/
structure IpEntry where
  count : Nat
  resetTime : Nat
  warned : Bool
deriving DecidableEq, Repr

/-- State of the `loginAttempts` map. -/
abbrev AttemptMap := String → Option AttemptEntry

/-- State of the `ipRequests` map. -/
abbrev IpMap := String → Option IpEntry

/-- Outcome of the IP gate: pass to the next middleware, or an early
429 response with the given error string and retryAfter seconds. -/
inductive IpRes where
  | next
  | blocked (status : Nat) (error : String) (retryAfter : Nat)
deriving DecidableEq, Repr

/-- Full observable effect of one `globalRateLimiter` call: the routing
outcome, whether a warning log line was emitted, and the new store. -/
structure IpOut where
  result : IpRes
  warnLogged : Bool
  store : IpMap

/-- Embedding of `globalRateLimiter` (rateLimitMiddleware.js:41-80).
The counter is created/reset lazily, incremented on every request
(blocked or not) and written back; a request is blocked when the
incremented count exceeds the per-IP maximum, and the warning log line is
emitted only when the `warned` flag is still false. -/
def globalRateLimiter (ipm : IpMap) (now : Nat) (clientIP : String) :
    IpOut :=
  let ipData0 := (ipm clientIP).getD
    { count := 0, resetTime := now + IP_WINDOW_MS, warned := false }
  let ipData1 :=
    if ipData0.resetTime < now then
      { count := 0, resetTime := now + IP_WINDOW_MS, warned := false }
    else ipData0
  let ipData2 := { ipData1 with count := ipData1.count + 1 }
  if MAX_REQUESTS_PER_IP < ipData2.count then
    if ipData2.warned = false then
      { result := IpRes.blocked 429 "Too many requests. Please slow down."
          (jsCeilDiv (ipData2.resetTime - now) 1000),
        warnLogged := true,
        store := mapSet ipm clientIP { ipData2 with warned := true } }
    else
      { result := IpRes.blocked 429 "Too many requests. Please slow down."
          (jsCeilDiv (ipData2.resetTime - now) 1000),
        warnLogged := false,
        store := mapSet ipm clientIP ipData2 }
  else
    { result := IpRes.next, warnLogged := false,
      store := mapSet ipm clientIP ipData2 }

/-- Outcome of the identifier gate. -/
inductive IdGateRes where
  | next
  | blocked (status : Nat) (error : String) (retryAfter : Nat)
      (resetTime : Nat)
deriving DecidableEq, Repr

/-- Embedding of `rateLimitMiddleware` (rateLimitMiddleware.js:86-117).
A missing or empty identifier passes unconditionally.  The retrieved (or
fresh) entry is reset when the window has passed; JS mutates the
retrieved object in place, so the store changes only when the entry
existed and the reset branch ran.  A request is blocked, without any
increment, when the (possibly reset) count has reached the maximum. -/
def rateLimitMiddleware (m : AttemptMap) (now : Nat)
    (identifier : Option String) : IdGateRes × AttemptMap :=
  match identifier with
  | none => (IdGateRes.next, m)
  | some id =>
    if id = "" then (IdGateRes.next, m)
    else
      let fromStore := m id
      let a0 := fromStore.getD
        { attempts := 0, resetTime := now + FAILED_WINDOW_MS }
      let windowPassed : Bool := decide (a0.resetTime < now)
      let a1 :=
        if windowPassed then
          ({ attempts := 0, resetTime := now + FAILED_WINDOW_MS } : AttemptEntry)
        else a0
      let m1 := if windowPassed && fromStore.isSome then mapSet m id a1 else m
      if MAX_FAILED_ATTEMPTS ≤ a1.attempts then
        (IdGateRes.blocked 429
          "Too many failed login attempts. Please try again later."
          (jsCeilDiv (a1.resetTime - now) 1000) a1.resetTime, m1)
      else
        (IdGateRes.next, m1)

/-- Embedding of `recordFailedAttempt` (rateLimitMiddleware.js:125-142):
no-op on a falsy identifier; otherwise reset the entry if its window has
passed, increment, and write back. -/
def recordFailedAttempt (m : AttemptMap) (now : Nat)
    (identifier : Option String) : AttemptMap :=
  match identifier with
  | none => m
  | some id =>
    if id = "" then m
    else
      let a0 := (m id).getD
        { attempts := 0, resetTime := now + FAILED_WINDOW_MS }
      let a1 :=
        if a0.resetTime < now then
          ({ attempts := 0, resetTime := now + FAILED_WINDOW_MS } : AttemptEntry)
        else a0
      mapSet m id { a1 with attempts := a1.attempts + 1 }

/-- Embedding of `clearLoginAttempts` (rateLimitMiddleware.js:149-153):
delete the identifier's entry (no-op on a falsy identifier). -/
def clearLoginAttempts (m : AttemptMap) (identifier : Option String) :
    AttemptMap :=
  match identifier with
  | none => m
  | some id => if id = "" then m else mapDelete m id

/-! ## Authentication service and pipeline -/

/-- Error kinds thrown by the service (exceptions/index.js), as mapped by
the error handler: BadRequestError becomes 400, UnauthorizedError 401. -/
inductive LoginErr where
  | badRequest (message : String)
  | unauthorized (message : String)
deriving DecidableEq, Repr

/-- Success payload of the service `login`. -/
structure LoginOk where
  message : String
  user : UserClaims
  token : SignedToken
deriving DecidableEq, Repr

/-- Embedding of the service `login` (authService, src/unnamed/part_003
lines 89-152): validate both inputs (failures become BadRequest), look up
the user, compare the password via the bcrypt oracle, record a failed
attempt on either failure, clear the counter on success and then issue
the token; a token-issuance error is caught and re-thrown as the generic
UnauthorizedError "Authentication failed". -/
def login (users : List UserRecord) (pwCheck : String → String → Bool)
    (secret : Option String) (m : AttemptMap)
    (identifier password : Option String) (now : Nat) :
    Except LoginErr LoginOk × AttemptMap :=
  match validateIdentifier identifier with
  | Except.error e => (Except.error (LoginErr.badRequest e), m)
  | Except.ok validatedIdentifier =>
    match validatePassword password with
    | Except.error e => (Except.error (LoginErr.badRequest e), m)
    | Except.ok validatedPassword =>
      match findByUsernameOrEmail users validatedIdentifier with
      | none =>
        (Except.error (LoginErr.unauthorized "Invalid credentials"),
          recordFailedAttempt m now (some validatedIdentifier))
      | some user =>
        if pwCheck validatedPassword user.password then
          let cleared := clearLoginAttempts m (some validatedIdentifier)
          match generateToken secret
              { id := user.id, username := user.username,
                email := user.email } now with
          | Except.error _ =>
            (Except.error (LoginErr.unauthorized "Authentication failed"),
              cleared)
          | Except.ok token =>
            (Except.ok
              { message := "Login successful",
                user := { id := user.id, username := user.username,
                          email := user.email },
                token := token }, cleared)
        else
          (Except.error (LoginErr.unauthorized "Invalid credentials"),
            recordFailedAttempt m now (some validatedIdentifier))

/-- JSON response shape produced by the pipeline (controller plus
errorHandler); absent JSON fields are `none`.  The `resetTime` field
holds the raw millisecond timestamp whose ISO rendering the middleware
returns. -/
structure ApiResponse where
  status : Nat
  success : Bool
  message : Option String := none
  error : Option String := none
  user : Option UserClaims := none
  token : Option SignedToken := none
  retryAfter : Option Nat := none
  resetTime : Option Nat := none
deriving DecidableEq, Repr

/-- Embedding of the `POST /api/login` route composition
(authRoutes.js: globalRateLimiter, then rateLimitMiddleware, then the
controller) together with the error handler's status mapping
(errorHandler.js:49-54: BadRequestError to 400, UnauthorizedError to
401). -/
def handleLogin (users : List UserRecord) (pwCheck : String → String → Bool)
    (secret : Option String) (now : Nat) (ipm : IpMap) (m : AttemptMap)
    (ip : String) (identifier password : Option String) :
    ApiResponse × IpMap × AttemptMap :=
  match (globalRateLimiter ipm now ip).result with
  | IpRes.blocked st e r =>
    ({ status := st, success := false, error := some e,
       retryAfter := some r }, (globalRateLimiter ipm now ip).store, m)
  | IpRes.next =>
    match rateLimitMiddleware m now identifier with
    | (IdGateRes.blocked st e r reset, m1) =>
      ({ status := st, success := false, error := some e,
         retryAfter := some r, resetTime := some reset },
        (globalRateLimiter ipm now ip).store, m1)
    | (IdGateRes.next, m1) =>
      match login users pwCheck secret m1 identifier password now with
      | (Except.ok okRes, m2) =>
        ({ status := 200, success := true, message := some okRes.message,
           user := some okRes.user, token := some okRes.token },
          (globalRateLimiter ipm now ip).store, m2)
      | (Except.error (LoginErr.badRequest e), m2) =>
        ({ status := 400, success := false, error := some e },
          (globalRateLimiter ipm now ip).store, m2)
      | (Except.error (LoginErr.unauthorized e), m2) =>
        ({ status := 401, success := false, error := some e },
          (globalRateLimiter ipm now ip).store, m2)

/-- Trace of a sequence of requests from one IP through the IP gate:
the list of (routing outcome, warning-logged) observations and the final
store. -/
def processAll (ipm : IpMap) (ip : String) :
    List Nat → List (IpRes × Bool) × IpMap
  | [] => ([], ipm)
  | t :: ts =>
    let o := globalRateLimiter ipm t ip
    let rest := processAll o.store ip ts
    ((o.result, o.warnLogged) :: rest.1, rest.2)

/-! ## Decidability helper -/

/-- Decidable equality for `Except`, used to evaluate the embedding on
concrete inputs. -/
instance {α β : Type} [DecidableEq α] [DecidableEq β] :
    DecidableEq (Except α β) := fun x y =>
  match x, y with
  | Except.ok a, Except.ok b =>
    if h : a = b then Decidable.isTrue (by rw [h])
    else Decidable.isFalse (fun hc => h (Except.ok.inj hc))
  | Except.error a, Except.error b =>
    if h : a = b then Decidable.isTrue (by rw [h])
    else Decidable.isFalse (fun hc => h (Except.error.inj hc))
  | Except.ok _, Except.error _ =>
    Decidable.isFalse (fun hc => Except.noConfusion hc)
  | Except.error _, Except.ok _ =>
    Decidable.isFalse (fun hc => Except.noConfusion hc)

/-! ## Helper lemmas -/

/-- Reading back the key just written. -/
lemma mapSet_self {α : Type} (m : String → Option α) (k : String) (v : α) :
    mapSet m k v k = some v := by
  simp [mapSet]

/-- Writing one key does not disturb any other key. -/
lemma mapSet_ne {α : Type} (m : String → Option α) (k : String) (v : α)
    (j : String) (h : j ≠ k) : mapSet m k v j = m j := by
  simp [mapSet, h]

/-- Deleting one key does not disturb any other key. -/
lemma mapDelete_ne {α : Type} (m : String → Option α) (k j : String)
    (h : j ≠ k) : mapDelete m k j = m j := by
  simp [mapDelete, h]

/-- Deleted key reads back as absent. -/
lemma mapDelete_self {α : Type} (m : String → Option α) (k : String) :
    mapDelete m k k = none := by
  simp [mapDelete]

/-- Identifiers accepted by `validateIdentifier` pass the regex test. -/
lemma validateIdentifier_ok_pattern {x : Option String} {v : String}
    (h : validateIdentifier x = Except.ok v) :
    matchesIdentifierPattern v = true := by
  unfold validateIdentifier at h
  cases hvi : validateInput x "identifier" with
  | error e => rw [hvi] at h; cases h
  | ok w =>
    rw [hvi] at h
    dsimp only at h
    by_cases hp : matchesIdentifierPattern w = true
    · rw [if_pos hp] at h
      cases h
      exact hp
    · rw [if_neg hp] at h
      cases h

/-- Identifiers accepted by `validateIdentifier` are non-empty (the
regex requires at least 3 characters). -/
lemma validateIdentifier_ok_ne_empty {x : Option String} {v : String}
    (h : validateIdentifier x = Except.ok v) : v ≠ "" := by
  intro he
  have hp := validateIdentifier_ok_pattern h
  rw [he] at hp
  exact absurd hp (by decide)

/-- The identifier gate passes, leaving the store untouched, when the
identifier has no entry. -/
lemma rateLimitMiddleware_absent (m : AttemptMap) (now : Nat) (id : String)
    (hid : id ≠ "") (h : m id = none) :
    rateLimitMiddleware m now (some id) = (IdGateRes.next, m) := by
  simp [rateLimitMiddleware, hid, h, MAX_FAILED_ATTEMPTS,
    Nat.not_lt.2 (Nat.le_add_right now FAILED_WINDOW_MS)]

/-- On the success path (user found, password matches) the service's
output counter map is exactly the cleared map, whatever the token
outcome. -/
lemma login_success_state (users : List UserRecord)
    (pwCheck : String → String → Bool) (secret : Option String)
    (m : AttemptMap) (idRaw pwRaw : Option String) (now : Nat)
    (vid vpw : String) (u : UserRecord)
    (hvid : validateIdentifier idRaw = Except.ok vid)
    (hvpw : validatePassword pwRaw = Except.ok vpw)
    (hu : findByUsernameOrEmail users vid = some u)
    (hpw : pwCheck vpw u.password = true) :
    (login users pwCheck secret m idRaw pwRaw now).2 =
      clearLoginAttempts m (some vid) := by
  unfold login
  rw [hvid, hvpw]
  dsimp only
  rw [hu]
  dsimp only
  rw [hpw]
  simp only [eq_self_iff_true, if_true]
  cases generateToken secret
      { id := u.id, username := u.username, email := u.email } now <;> rfl

/-! ## Claim C5 -/

/-- C5 (counterexample): the string " abc " has length in [3,50] but
contains characters (spaces) outside the charset, so by the claim it
must fail with BadInput; instead `validateIdentifier` trims first and
accepts it, returning "abc". -/
theorem C5_counterexample :
    " abc ".data.all identifierCharOk = false ∧
    3 ≤ " abc ".length ∧ " abc ".length ≤ 50 ∧
    validateIdentifier (some " abc ") = Except.ok "abc" := by
  decide

/-- C5 (amended): `validateIdentifier` validates the trimmed input: for
every non-empty string whose trim matches the 3-50-character charset
pattern it succeeds and returns the trim; whenever the trim does not
match the pattern it fails, and a non-string input fails. -/
theorem C5_amended_trimThenValidate (s : String) :
    (s ≠ "" → matchesIdentifierPattern (jsTrim s) = true →
      validateIdentifier (some s) = Except.ok (jsTrim s)) ∧
    (matchesIdentifierPattern (jsTrim s) = false →
      ∃ e, validateIdentifier (some s) = Except.error e) ∧
    (∃ e, validateIdentifier none = Except.error e) := by
  refine ⟨?_, ?_, ⟨_, rfl⟩⟩
  · intro hne hp
    have hlen : (jsTrim s).length ≠ 0 := by
      intro h0
      have h3 : (decide (3 ≤ (jsTrim s).length) &&
          decide ((jsTrim s).length ≤ 50) &&
          (jsTrim s).data.all identifierCharOk) = true := hp
      rw [h0] at h3
      simp at h3
    unfold validateIdentifier validateInput
    dsimp only
    rw [if_neg hne]
    rw [if_neg hlen]
    dsimp only
    rw [if_pos hp]
  · intro hp
    by_cases hs : s = ""
    · subst hs
      exact ⟨_, rfl⟩
    · unfold validateIdentifier validateInput
      dsimp only
      rw [if_neg hs]
      by_cases hlen : (jsTrim s).length = 0
      · rw [if_pos hlen]
        exact ⟨_, rfl⟩
      · rw [if_neg hlen]
        dsimp only
        rw [if_neg (by rw [hp]; exact Bool.false_ne_true)]
        exact ⟨_, rfl⟩

/-- C5 (witness): applying the amended theorem to the identifier
"john_doe". -/
theorem C5_amended_witness :
    ("john_doe" ≠ "" ∧ matchesIdentifierPattern (jsTrim "john_doe") = true) ∧
    validateIdentifier (some "john_doe") = Except.ok (jsTrim "john_doe") :=
  ⟨⟨by decide, by decide⟩,
    (C5_amended_trimThenValidate "john_doe").1 (by decide) (by decide)⟩

/-! ## Claim C6 -/

/-- C6 (counterexample): with no signing secret configured the process
start succeeds (server.js performs no configuration check), and the
missing secret is instead encountered at request time by token
issuance. -/
theorem C6_counterexample :
    startServer none none = Except.ok 4000 ∧
    generateToken none
        { id := 1, username := "john_doe", email := "john@example.com" } 0 =
      Except.error "JWT_SECRET not configured" :=
  ⟨rfl, rfl⟩

/-- C6 (amended): there is no startup check: with no secret configured
the server starts normally, and a login passing every credential check
fails at request time when token issuance hits the missing secret,
surfaced by the service as the generic "Authentication failed"
UnauthorizedError. -/
theorem C6_amended_requestTimeFailure (users : List UserRecord)
    (pwCheck : String → String → Bool) (m : AttemptMap)
    (idRaw pwRaw : Option String) (now : Nat) (vid vpw : String)
    (u : UserRecord) (port : Option Nat)
    (hvid : validateIdentifier idRaw = Except.ok vid)
    (hvpw : validatePassword pwRaw = Except.ok vpw)
    (hu : findByUsernameOrEmail users vid = some u)
    (hpw : pwCheck vpw u.password = true) :
    (∃ p, startServer none port = Except.ok p) ∧
    (login users pwCheck none m idRaw pwRaw now).1 =
      Except.error (LoginErr.unauthorized "Authentication failed") := by
  constructor
  · cases port with
    | none => exact ⟨4000, rfl⟩
    | some p => exact ⟨p, rfl⟩
  · unfold login
    rw [hvid, hvpw]
    dsimp only
    rw [hu]
    dsimp only
    rw [hpw]
    simp only [eq_self_iff_true, if_true]
    rfl

/-- C6 (witness): concrete instantiation of the amended theorem with the
seeded user john_doe and an oracle accepting its password. -/
theorem C6_amended_witness :
    (validateIdentifier (some "john_doe") = Except.ok "john_doe" ∧
     validatePassword (some "john123") = Except.ok "john123" ∧
     findByUsernameOrEmail usersData "john_doe" = some
       { id := 1, username := "john_doe", email := "john@example.com",
         password := "$2b$10$/abf7yy0Yl38cwy4iq/miuWXVf2B6aIwnfppzUaJ9.1dVnuwkWmWC" }) ∧
    (login usersData (fun _ _ => true) none (fun _ => none)
        (some "john_doe") (some "john123") 0).1 =
      Except.error (LoginErr.unauthorized "Authentication failed") :=
  ⟨⟨by decide, by decide, by decide⟩,
    (C6_amended_requestTimeFailure usersData (fun _ _ => true)
      (fun _ => none) (some "john_doe") (some "john123") 0
      "john_doe" "john123"
      { id := 1, username := "john_doe", email := "john@example.com",
        password := "$2b$10$/abf7yy0Yl38cwy4iq/miuWXVf2B6aIwnfppzUaJ9.1dVnuwkWmWC" }
      none (by decide) (by decide) (by decide) rfl).2⟩

/-! ## Claim C9 -/

/-- C9: a token issued for any claims payload verifies successfully and
yields the identical claims while the clock is before the token's
expiry, and verification of the same token at or after expiry fails with
ExpiredToken. -/
theorem C9_tokenRoundTrip (p : UserClaims) (s : String) (t tv : Nat)
    (tok : SignedToken)
    (htok : generateToken (some s) p t = Except.ok tok) :
    (tv / 1000 < tok.expSec → verifyToken (some s) tok tv = Except.ok p) ∧
    (tok.expSec ≤ tv / 1000 →
      verifyToken (some s) tok tv = Except.error VerifyErr.expiredToken) := by
  have htok2 : tok =
      { payload := p, iat := t / 1000, expSec := t / 1000 + JWT_EXPIRATION_SEC,
        sig := jwtSignature p (t / 1000) (t / 1000 + JWT_EXPIRATION_SEC) s } := by
    unfold generateToken at htok
    exact (Except.ok.inj htok).symm
  subst htok2
  constructor
  · intro hlt
    unfold verifyToken
    dsimp only
    rw [if_pos rfl, if_neg (Nat.not_le.2 hlt)]
  · intro hge
    unfold verifyToken
    dsimp only
    rw [if_pos rfl, if_pos hge]

/-- C9 (witness): round trip for the spec's example user with a concrete
secret; verification succeeds one second after issuance and fails with
ExpiredToken once the 24-hour expiry has passed. -/
theorem C9_witness :
    generateToken (some "k")
        { id := 1, username := "john_doe", email := "john@example.com" } 0 =
      Except.ok
        { payload := { id := 1, username := "john_doe", email := "john@example.com" },
          iat := 0, expSec := 86400,
          sig := jwtSignature
            { id := 1, username := "john_doe", email := "john@example.com" }
            0 86400 "k" } ∧
    verifyToken (some "k")
        { payload := { id := 1, username := "john_doe", email := "john@example.com" },
          iat := 0, expSec := 86400,
          sig := jwtSignature
            { id := 1, username := "john_doe", email := "john@example.com" }
            0 86400 "k" } 1000 =
      Except.ok { id := 1, username := "john_doe", email := "john@example.com" } ∧
    verifyToken (some "k")
        { payload := { id := 1, username := "john_doe", email := "john@example.com" },
          iat := 0, expSec := 86400,
          sig := jwtSignature
            { id := 1, username := "john_doe", email := "john@example.com" }
            0 86400 "k" } 86400000 =
      Except.error VerifyErr.expiredToken :=
  ⟨by decide,
    (C9_tokenRoundTrip
      { id := 1, username := "john_doe", email := "john@example.com" }
      "k" 0 1000 _ (by decide)).1 (by decide),
    (C9_tokenRoundTrip
      { id := 1, username := "john_doe", email := "john@example.com" }
      "k" 0 86400000 _ (by decide)).2 (by decide)⟩

/-! ## Claim C8 -/

/-- C8: whenever input validation fails, the service login returns a
BadRequest error and the failed-attempt store is left pointwise
unchanged: nothing is recorded, created, incremented or cleared. -/
theorem C8_badInputNoBookkeeping (users : List UserRecord)
    (pwCheck : String → String → Bool) (secret : Option String)
    (m : AttemptMap) (identifier password : Option String) (now : Nat)
    (h : (∃ e, validateIdentifier identifier = Except.error e) ∨
         (∃ e, validatePassword password = Except.error e)) :
    (∃ e, (login users pwCheck secret m identifier password now).1 =
        Except.error (LoginErr.badRequest e)) ∧
    (∀ j, (login users pwCheck secret m identifier password now).2 j = m j) := by
  cases hvi : validateIdentifier identifier with
  | error e =>
    unfold login
    rw [hvi]
    exact ⟨⟨e, rfl⟩, fun j => rfl⟩
  | ok vid =>
    cases hvp : validatePassword password with
    | error e =>
      unfold login
      rw [hvi]
      dsimp only
      rw [hvp]
      exact ⟨⟨e, rfl⟩, fun j => rfl⟩
    | ok vpw =>
      rcases h with ⟨e, he⟩ | ⟨e, he⟩
      · rw [hvi] at he
        cases he
      · rw [hvp] at he
        cases he

/-- C8 (witness): a too-short identifier fails validation; login returns
BadRequest and the store is untouched at the probed keys. -/
theorem C8_witness :
    validateIdentifier (some "ab") = Except.error "Invalid identifier format" ∧
    (∃ e, (login usersData (fun _ _ => false) none (fun _ => none)
        (some "ab") (some "john123") 0).1 =
      Except.error (LoginErr.badRequest e)) ∧
    (login usersData (fun _ _ => false) none (fun _ => none)
        (some "ab") (some "john123") 0).2 "ab" = none :=
  ⟨by decide,
    (C8_badInputNoBookkeeping usersData (fun _ _ => false) none
      (fun _ => none) (some "ab") (some "john123") 0
      (Or.inl ⟨"Invalid identifier format", by decide⟩)).1,
    (C8_badInputNoBookkeeping usersData (fun _ _ => false) none
      (fun _ => none) (some "ab") (some "john123") 0
      (Or.inl ⟨"Invalid identifier format", by decide⟩)).2 "ab"⟩

/-! ## Claim C4 -/

/-- C4: on the successful-login path (user found and password matching),
the service output store has the identifier's counter deleted; the
deletion happens before token issuance (the output store is the cleared
map whatever the token outcome), so the next identifier-gate check for
that identifier passes with an attempt count of zero and without
touching the store. -/
theorem C4_successClearsCounter (users : List UserRecord)
    (pwCheck : String → String → Bool) (secret : Option String)
    (m : AttemptMap) (idRaw pwRaw : Option String) (now : Nat)
    (vid vpw : String) (u : UserRecord)
    (hvid : validateIdentifier idRaw = Except.ok vid)
    (hvpw : validatePassword pwRaw = Except.ok vpw)
    (hu : findByUsernameOrEmail users vid = some u)
    (hpw : pwCheck vpw u.password = true) :
    (login users pwCheck secret m idRaw pwRaw now).2 vid = none ∧
    (∀ now2, rateLimitMiddleware
        ((login users pwCheck secret m idRaw pwRaw now).2) now2 (some vid) =
      (IdGateRes.next, (login users pwCheck secret m idRaw pwRaw now).2)) := by
  have hne := validateIdentifier_ok_ne_empty hvid
  have hstate := login_success_state users pwCheck secret m idRaw pwRaw now
    vid vpw u hvid hvpw hu hpw
  have hnone : (login users pwCheck secret m idRaw pwRaw now).2 vid = none := by
    rw [hstate]
    unfold clearLoginAttempts
    dsimp only
    rw [if_neg hne]
    exact mapDelete_self m vid
  exact ⟨hnone, fun now2 =>
    rateLimitMiddleware_absent _ now2 vid hne hnone⟩

/-- C4 (witness): concrete successful login for john_doe after prior
failures; the counter is gone and the next gate check passes. -/
theorem C4_witness :
    (validateIdentifier (some "john_doe") = Except.ok "john_doe" ∧
     validatePassword (some "john123") = Except.ok "john123" ∧
     findByUsernameOrEmail usersData "john_doe" = some
       { id := 1, username := "john_doe", email := "john@example.com",
         password := "$2b$10$/abf7yy0Yl38cwy4iq/miuWXVf2B6aIwnfppzUaJ9.1dVnuwkWmWC" }) ∧
    (login usersData (fun _ _ => true) (some "k")
        (mapSet (fun _ => none) "john_doe" { attempts := 4, resetTime := 999999 })
        (some "john_doe") (some "john123") 0).2 "john_doe" = none :=
  ⟨⟨by decide, by decide, by decide⟩,
    (C4_successClearsCounter usersData (fun _ _ => true) (some "k")
      (mapSet (fun _ => none) "john_doe" { attempts := 4, resetTime := 999999 })
      (some "john_doe") (some "john123") 0 "john_doe" "john123"
      { id := 1, username := "john_doe", email := "john@example.com",
        password := "$2b$10$/abf7yy0Yl38cwy4iq/miuWXVf2B6aIwnfppzUaJ9.1dVnuwkWmWC" }
      (by decide) (by decide) (by decide) rfl).1⟩

/-! ## Claim C10 -/

/-- C10: `recordFailedAttempt` and `clearLoginAttempts` touch only the
counter stored under their exact key and leave every other key's counter
unchanged; consequently counters for a user's username and email are
independent, and a lockout recorded under one key never blocks the
identifier gate for another key whose own counter is absent. -/
theorem C10_perKeyIsolation (m : AttemptMap) (now now2 : Nat) (i : String) :
    (∀ j, j ≠ i → recordFailedAttempt m now (some i) j = m j) ∧
    (∀ j, j ≠ i → clearLoginAttempts m (some i) j = m j) ∧
    (∀ e, e ≠ i → e ≠ "" → m e = none →
      rateLimitMiddleware (recordFailedAttempt m now (some i)) now2 (some e) =
        (IdGateRes.next, recordFailedAttempt m now (some i))) := by
  have hframe : ∀ j, j ≠ i → recordFailedAttempt m now (some i) j = m j := by
    intro j hj
    unfold recordFailedAttempt
    dsimp only
    by_cases hi : i = ""
    · rw [if_pos hi]
    · rw [if_neg hi]
      exact mapSet_ne m i _ j hj
  refine ⟨hframe, ?_, ?_⟩
  · intro j hj
    unfold clearLoginAttempts
    dsimp only
    by_cases hi : i = ""
    · rw [if_pos hi]
    · rw [if_neg hi]
      exact mapDelete_ne m i j hj
  · intro e he hne hnone
    have : recordFailedAttempt m now (some i) e = none := by
      rw [hframe e he]
      exact hnone
    exact rateLimitMiddleware_absent _ now2 e hne this

/-- C10 (witness): with john_doe's username locked out (5 failed
attempts recorded under "john_doe"), the counter under the email key is
untouched and the identifier gate still passes for
"john@example.com". -/
theorem C10_witness :
    ("john@example.com" ≠ "john_doe" ∧
     (mapSet (fun _ => none) "john_doe"
        { attempts := 5, resetTime := 999999 } : AttemptMap)
        "john@example.com" = none) ∧
    rateLimitMiddleware
        (recordFailedAttempt
          (mapSet (fun _ => none) "john_doe"
            { attempts := 5, resetTime := 999999 }) 0 (some "john_doe"))
        0 (some "john@example.com") =
      (IdGateRes.next,
        recordFailedAttempt
          (mapSet (fun _ => none) "john_doe"
            { attempts := 5, resetTime := 999999 }) 0 (some "john_doe")) :=
  ⟨⟨by decide, by decide⟩,
    (C10_perKeyIsolation
      (mapSet (fun _ => none) "john_doe" { attempts := 5, resetTime := 999999 })
      0 0 "john_doe").2.2 "john@example.com" (by decide) (by decide)
      (by decide)⟩

/-! ## Identifier-gate lemmas -/

/-- Blocked identifier-gate call: with a live window and the maximum
reached, the gate returns the 429 payload and leaves the store
untouched. -/
lemma rateLimitMiddleware_blocked (m : AttemptMap) (now : Nat) (id : String)
    (c R : Nat) (hid : id ≠ "")
    (hm : m id = some { attempts := c, resetTime := R })
    (hwin : now ≤ R) (hc : MAX_FAILED_ATTEMPTS ≤ c) :
    rateLimitMiddleware m now (some id) =
      (IdGateRes.blocked 429
        "Too many failed login attempts. Please try again later."
        (jsCeilDiv (R - now) 1000) R, m) := by
  unfold rateLimitMiddleware
  dsimp only
  rw [if_neg hid, hm]
  simp only [Option.getD_some, Option.isSome_some, Bool.and_true]
  rw [decide_eq_false (Nat.not_lt.2 hwin)]
  simp only [Bool.false_eq_true, if_false, if_pos hc]

/-- Expired-window identifier-gate call: the stored entry is reset in
place (count treated as zero) and the gate passes. -/
lemma rateLimitMiddleware_expired (m : AttemptMap) (now : Nat) (id : String)
    (c R : Nat) (hid : id ≠ "")
    (hm : m id = some { attempts := c, resetTime := R }) (hwin : R < now) :
    rateLimitMiddleware m now (some id) =
      (IdGateRes.next,
        mapSet m id { attempts := 0, resetTime := now + FAILED_WINDOW_MS }) := by
  unfold rateLimitMiddleware
  dsimp only
  rw [if_neg hid, hm]
  simp only [Option.getD_some, Option.isSome_some, Bool.and_true]
  rw [decide_eq_true hwin]
  simp only [if_true]
  rw [if_neg (by decide : ¬(MAX_FAILED_ATTEMPTS ≤ 0))]

/-- Service login with an unknown (validated) identifier fails with the
generic invalid-credentials error. -/
lemma login_unknown (users : List UserRecord)
    (pwCheck : String → String → Bool) (secret : Option String)
    (m : AttemptMap) (idRaw pwRaw : Option String) (now : Nat) (vid : String)
    (hvid : validateIdentifier idRaw = Except.ok vid)
    (hvpw : (validatePassword pwRaw).isOk = true)
    (hfind : findByUsernameOrEmail users vid = none) :
    (login users pwCheck secret m idRaw pwRaw now).1 =
      Except.error (LoginErr.unauthorized "Invalid credentials") := by
  unfold login
  rw [hvid]
  dsimp only
  cases hvp2 : validatePassword pwRaw with
  | error e => rw [hvp2] at hvpw; simp [Except.isOk, Except.toBool] at hvpw
  | ok vpw =>
    dsimp only
    rw [hfind]

/-- Service login with a known user but non-matching password fails with
the same generic invalid-credentials error. -/
lemma login_wrongPassword (users : List UserRecord)
    (pwCheck : String → String → Bool) (secret : Option String)
    (m : AttemptMap) (idRaw pwRaw : Option String) (now : Nat)
    (vid vpw : String) (u : UserRecord)
    (hvid : validateIdentifier idRaw = Except.ok vid)
    (hvpw : validatePassword pwRaw = Except.ok vpw)
    (hu : findByUsernameOrEmail users vid = some u)
    (hpw : pwCheck vpw u.password = false) :
    (login users pwCheck secret m idRaw pwRaw now).1 =
      Except.error (LoginErr.unauthorized "Invalid credentials") := by
  unfold login
  rw [hvid]
  dsimp only
  rw [hvpw]
  dsimp only
  rw [hu]
  dsimp only
  rw [hpw]
  simp only [Bool.false_eq_true, if_false]

/-- Pipeline response once both gates pass and the service rejects with
an UnauthorizedError: the error handler renders it as a 401 body. -/
lemma handleLogin_unauthorized (users : List UserRecord)
    (pwCheck : String → String → Bool) (secret : Option String) (now : Nat)
    (ipm : IpMap) (m : AttemptMap) (ip : String)
    (identifier password : Option String) (e : String)
    (hip : (globalRateLimiter ipm now ip).result = IpRes.next)
    (hg : (rateLimitMiddleware m now identifier).1 = IdGateRes.next)
    (hl : ∀ m1 : AttemptMap,
      (login users pwCheck secret m1 identifier password now).1 =
        Except.error (LoginErr.unauthorized e)) :
    (handleLogin users pwCheck secret now ipm m ip identifier password).1 =
      { status := 401, success := false, error := some e } := by
  unfold handleLogin
  rw [hip]
  dsimp only
  rcases hgm : rateLimitMiddleware m now identifier with ⟨g1, m1⟩
  rw [hgm] at hg
  dsimp only at hg
  subst hg
  dsimp only
  rcases hlm : login users pwCheck secret m1 identifier password now with ⟨res, m2⟩
  have := hl m1
  rw [hlm] at this
  dsimp only at this
  subst this
  rfl

/-! ## Claim C2 -/

/-- C2: with a live window and at least the maximum failed attempts
recorded for an identifier, the identifier gate rejects the request with
the 429 payload carrying retryAfter and the reset timestamp; the blocked
check leaves the counter map unchanged, the response does not depend on
the user store, the password oracle or the secret (so no lookup or
comparison influences it), and once the window has elapsed the stored
count is treated as zero again. -/
theorem C2_lockoutBlocksBeforeLookup (users : List UserRecord)
    (pwCheck : String → String → Bool) (secret : Option String)
    (ipm : IpMap) (m : AttemptMap) (ip id : String) (pw : Option String)
    (now c R : Nat) (hid : id ≠ "")
    (hm : m id = some { attempts := c, resetTime := R })
    (hc : MAX_FAILED_ATTEMPTS ≤ c) (hwin : now ≤ R)
    (hip : (globalRateLimiter ipm now ip).result = IpRes.next) :
    (handleLogin users pwCheck secret now ipm m ip (some id) pw).1 =
      { status := 429, success := false,
        error := some "Too many failed login attempts. Please try again later.",
        retryAfter := some (jsCeilDiv (R - now) 1000),
        resetTime := some R } ∧
    (handleLogin users pwCheck secret now ipm m ip (some id) pw).2.2 = m ∧
    (∀ (us : List UserRecord) (pc : String → String → Bool)
        (sec : Option String),
      (handleLogin us pc sec now ipm m ip (some id) pw).1 =
      (handleLogin users pwCheck secret now ipm m ip (some id) pw).1) ∧
    (∀ now2, R < now2 →
      rateLimitMiddleware m now2 (some id) =
        (IdGateRes.next,
          mapSet m id { attempts := 0,
                        resetTime := now2 + FAILED_WINDOW_MS })) := by
  have hgate := rateLimitMiddleware_blocked m now id c R hid hm hwin hc
  have key : ∀ (us : List UserRecord) (pc : String → String → Bool)
      (sec : Option String),
      (handleLogin us pc sec now ipm m ip (some id) pw).1 =
        { status := 429, success := false,
          error := some "Too many failed login attempts. Please try again later.",
          retryAfter := some (jsCeilDiv (R - now) 1000),
          resetTime := some R } ∧
      (handleLogin us pc sec now ipm m ip (some id) pw).2.2 = m := by
    intro us pc sec
    unfold handleLogin
    rw [hip]
    dsimp only
    rw [hgate]
    exact ⟨rfl, rfl⟩
  refine ⟨(key users pwCheck secret).1, (key users pwCheck secret).2, ?_, ?_⟩
  · intro us pc sec
    rw [(key us pc sec).1, (key users pwCheck secret).1]
  · intro now2 h2
    exact rateLimitMiddleware_expired m now2 id c R hid hm h2

/-- C2 (witness): identifier "bob" with 5 failed attempts in a live
window is rejected by the pipeline with the 429 payload. -/
theorem C2_witness :
    ((mapSet (fun _ => none) "bob"
        { attempts := 5, resetTime := 1000 } : AttemptMap) "bob" =
      some { attempts := 5, resetTime := 1000 } ∧
     MAX_FAILED_ATTEMPTS ≤ 5 ∧ (500 : Nat) ≤ 1000 ∧
     (globalRateLimiter (fun _ => none) 500 "9.9.9.9").result = IpRes.next) ∧
    (handleLogin usersData (fun _ _ => false) none 500 (fun _ => none)
        (mapSet (fun _ => none) "bob" { attempts := 5, resetTime := 1000 })
        "9.9.9.9" (some "bob") (some "xyz")).1 =
      { status := 429, success := false,
        error := some "Too many failed login attempts. Please try again later.",
        retryAfter := some (jsCeilDiv (1000 - 500) 1000),
        resetTime := some 1000 } :=
  ⟨⟨by decide, by decide, by decide, by decide⟩,
    (C2_lockoutBlocksBeforeLookup usersData (fun _ _ => false) none
      (fun _ => none)
      (mapSet (fun _ => none) "bob" { attempts := 5, resetTime := 1000 })
      "9.9.9.9" "bob" (some "xyz") 500 5 1000 (by decide) (by decide)
      (by decide) (by decide) (by decide)).1⟩

/-! ## Claim C1 -/

/-- C1: for a request with an unknown (validated) identifier and a
request with a known identifier but wrong password, both passing the
gates, the pipeline returns the identical response: status 401 with the
exact body success=false, error="Invalid credentials" and no other
field, so nothing distinguishes the two causes and no password or hash
appears. -/
theorem C1_invalidCredentialsIndistinguishable (users : List UserRecord)
    (pwCheck : String → String → Bool) (secret : Option String)
    (ipm : IpMap) (m : AttemptMap) (ip : String) (now : Nat)
    (idA pwA idB pwB : Option String) (vidA vidB vpwB : String)
    (u : UserRecord)
    (hip : (globalRateLimiter ipm now ip).result = IpRes.next)
    (hgA : (rateLimitMiddleware m now idA).1 = IdGateRes.next)
    (hgB : (rateLimitMiddleware m now idB).1 = IdGateRes.next)
    (hvA : validateIdentifier idA = Except.ok vidA)
    (hpA : (validatePassword pwA).isOk = true)
    (hfA : findByUsernameOrEmail users vidA = none)
    (hvB : validateIdentifier idB = Except.ok vidB)
    (hpB : validatePassword pwB = Except.ok vpwB)
    (hfB : findByUsernameOrEmail users vidB = some u)
    (hwB : pwCheck vpwB u.password = false) :
    (handleLogin users pwCheck secret now ipm m ip idA pwA).1 =
      { status := 401, success := false, error := some "Invalid credentials" } ∧
    (handleLogin users pwCheck secret now ipm m ip idB pwB).1 =
      { status := 401, success := false, error := some "Invalid credentials" } ∧
    (handleLogin users pwCheck secret now ipm m ip idA pwA).1 =
    (handleLogin users pwCheck secret now ipm m ip idB pwB).1 := by
  have hA := handleLogin_unauthorized users pwCheck secret now ipm m ip
    idA pwA "Invalid credentials" hip hgA
    (fun m1 => login_unknown users pwCheck secret m1 idA pwA now vidA
      hvA hpA hfA)
  have hB := handleLogin_unauthorized users pwCheck secret now ipm m ip
    idB pwB "Invalid credentials" hip hgB
    (fun m1 => login_wrongPassword users pwCheck secret m1 idB pwB now
      vidB vpwB u hvB hpB hfB hwB)
  exact ⟨hA, hB, hA.trans hB.symm⟩

/-- C1 (witness): "nobody" (not stored) and "john_doe" (stored, wrong
password under an always-false oracle) both produce exactly the 401
invalid-credentials body. -/
theorem C1_witness :
    ((globalRateLimiter (fun _ => none) 0 "1.2.3.4").result = IpRes.next ∧
     validateIdentifier (some "nobody") = Except.ok "nobody" ∧
     findByUsernameOrEmail usersData "nobody" = none ∧
     validateIdentifier (some "john_doe") = Except.ok "john_doe" ∧
     findByUsernameOrEmail usersData "john_doe" = some
       { id := 1, username := "john_doe", email := "john@example.com",
         password := "$2b$10$/abf7yy0Yl38cwy4iq/miuWXVf2B6aIwnfppzUaJ9.1dVnuwkWmWC" }) ∧
    (handleLogin usersData (fun _ _ => false) none 0 (fun _ => none)
        (fun _ => none) "1.2.3.4" (some "nobody") (some "whatever")).1 =
    (handleLogin usersData (fun _ _ => false) none 0 (fun _ => none)
        (fun _ => none) "1.2.3.4" (some "john_doe") (some "wrongpw")).1 :=
  ⟨⟨by decide, by decide, by decide, by decide, by decide⟩,
    (C1_invalidCredentialsIndistinguishable usersData (fun _ _ => false)
      none (fun _ => none) (fun _ => none) "1.2.3.4" 0
      (some "nobody") (some "whatever") (some "john_doe") (some "wrongpw")
      "nobody" "john_doe" "wrongpw"
      { id := 1, username := "john_doe", email := "john@example.com",
        password := "$2b$10$/abf7yy0Yl38cwy4iq/miuWXVf2B6aIwnfppzUaJ9.1dVnuwkWmWC" }
      (by decide) (by decide) (by decide) (by decide) (by decide)
      (by decide) (by decide) (by decide) (by decide) rfl).2.2⟩

/-! ## IP-gate step lemmas -/

/-- First request from an IP: counter created at 1, allowed. -/
lemma globalRateLimiter_first (ipm : IpMap) (ip : String) (t : Nat)
    (hm : ipm ip = none) :
    globalRateLimiter ipm t ip =
      { result := IpRes.next, warnLogged := false,
        store := mapSet ipm ip
          { count := 1, resetTime := t + IP_WINDOW_MS, warned := false } } := by
  unfold globalRateLimiter
  rw [hm]
  simp only [Option.getD_none]
  rw [if_neg (Nat.not_lt.2 (Nat.le_add_right t IP_WINDOW_MS))]
  rw [if_neg (by decide : ¬(MAX_REQUESTS_PER_IP < 0 + 1))]

/-- In-window request under the limit: count incremented, allowed,
warned flag preserved. -/
lemma globalRateLimiter_step_allowed (ipm : IpMap) (ip : String)
    (t c R : Nat) (w : Bool)
    (hm : ipm ip = some { count := c, resetTime := R, warned := w })
    (ht : t ≤ R) (hcount : c + 1 ≤ MAX_REQUESTS_PER_IP) :
    globalRateLimiter ipm t ip =
      { result := IpRes.next, warnLogged := false,
        store := mapSet ipm ip
          { count := c + 1, resetTime := R, warned := w } } := by
  unfold globalRateLimiter
  rw [hm]
  simp only [Option.getD_some]
  rw [if_neg (Nat.not_lt.2 ht)]
  rw [if_neg (Nat.not_lt.2 hcount)]

/-- In-window request crossing the limit with the warned flag still
false: blocked, warning emitted once, flag set. -/
lemma globalRateLimiter_step_blocked_first (ipm : IpMap) (ip : String)
    (t c R : Nat)
    (hm : ipm ip = some { count := c, resetTime := R, warned := false })
    (ht : t ≤ R) (hcount : MAX_REQUESTS_PER_IP < c + 1) :
    globalRateLimiter ipm t ip =
      { result := IpRes.blocked 429 "Too many requests. Please slow down."
          (jsCeilDiv (R - t) 1000),
        warnLogged := true,
        store := mapSet ipm ip
          { count := c + 1, resetTime := R, warned := true } } := by
  unfold globalRateLimiter
  rw [hm]
  simp only [Option.getD_some]
  rw [if_neg (Nat.not_lt.2 ht)]
  rw [if_pos hcount]
  rw [if_pos rfl]

/-- In-window blocked request with the warned flag already set: silent
block, flag stays set. -/
lemma globalRateLimiter_step_blocked_again (ipm : IpMap) (ip : String)
    (t c R : Nat)
    (hm : ipm ip = some { count := c, resetTime := R, warned := true })
    (ht : t ≤ R) (hcount : MAX_REQUESTS_PER_IP < c + 1) :
    globalRateLimiter ipm t ip =
      { result := IpRes.blocked 429 "Too many requests. Please slow down."
          (jsCeilDiv (R - t) 1000),
        warnLogged := false,
        store := mapSet ipm ip
          { count := c + 1, resetTime := R, warned := true } } := by
  unfold globalRateLimiter
  rw [hm]
  simp only [Option.getD_some]
  rw [if_neg (Nat.not_lt.2 ht)]
  rw [if_pos hcount]
  rw [if_neg (by decide : ¬((true : Bool) = false))]

/-- Expected per-request observations of the IP gate along a window,
starting from a stored count of `c`: the (k+1)-st processed request is
blocked exactly when the incremented count exceeds the maximum, and the
warning bit is set exactly at the request whose count first reaches
maximum-plus-one. -/
def expectedSteps (c R : Nat) : List Nat → List (IpRes × Bool)
  | [] => []
  | t :: ts =>
    ((if MAX_REQUESTS_PER_IP < c + 1 then
        IpRes.blocked 429 "Too many requests. Please slow down."
          (jsCeilDiv (R - t) 1000)
      else IpRes.next),
      decide (c + 1 = MAX_REQUESTS_PER_IP + 1)) :: expectedSteps (c + 1) R ts

/-- Characterization of a run of in-window requests through the IP gate
against `expectedSteps`, provided the stored warned flag agrees with the
count invariant. -/
lemma processAll_spec (ip : String) (R : Nat) :
    ∀ (ts : List Nat) (ipm : IpMap) (c : Nat),
      ipm ip = some { count := c, resetTime := R,
                      warned := decide (MAX_REQUESTS_PER_IP < c) } →
      (∀ u ∈ ts, u ≤ R) →
      (processAll ipm ip ts).1 = expectedSteps c R ts := by
  intro ts
  induction ts with
  | nil => intro ipm c hm hts; rfl
  | cons t ts ih =>
    intro ipm c hm hts
    have ht : t ≤ R := hts t (List.mem_cons_self t ts)
    have hts2 : ∀ u ∈ ts, u ≤ R := fun u hu => hts u (List.mem_cons_of_mem t hu)
    simp only [processAll, expectedSteps]
    by_cases hcount : MAX_REQUESTS_PER_IP < c + 1
    · by_cases hc : MAX_REQUESTS_PER_IP < c
      · have hm2 : ipm ip = some { count := c, resetTime := R, warned := true } := by
          rw [hm, decide_eq_true hc]
        rw [globalRateLimiter_step_blocked_again ipm ip t c R hm2 ht hcount]
        dsimp only
        congr 1
        · rw [if_pos hcount]
          rw [decide_eq_false (by omega : ¬(c + 1 = MAX_REQUESTS_PER_IP + 1))]
        · exact ih _ (c + 1)
            (by rw [mapSet_self, decide_eq_true hcount]) hts2
      · have hm2 : ipm ip = some { count := c, resetTime := R, warned := false } := by
          rw [hm, decide_eq_false hc]
        rw [globalRateLimiter_step_blocked_first ipm ip t c R hm2 ht hcount]
        dsimp only
        congr 1
        · rw [if_pos hcount]
          rw [decide_eq_true (by omega : c + 1 = MAX_REQUESTS_PER_IP + 1)]
        · exact ih _ (c + 1)
            (by rw [mapSet_self, decide_eq_true hcount]) hts2
    · have hm2 : ipm ip = some { count := c, resetTime := R, warned := false } := by
        rw [hm, decide_eq_false (by omega : ¬(MAX_REQUESTS_PER_IP < c))]
      rw [globalRateLimiter_step_allowed ipm ip t c R false hm2 ht
        (Nat.not_lt.1 hcount)]
      dsimp only
      congr 1
      · rw [if_neg hcount]
        rw [decide_eq_false (by omega : ¬(c + 1 = MAX_REQUESTS_PER_IP + 1))]
      · exact ih _ (c + 1)
          (by rw [mapSet_self, decide_eq_false hcount]) hts2

/-- Full run from a fresh IP: the first request is allowed silently and
the rest follow `expectedSteps` from count 1 with the window anchored at
the first request. -/
lemma processAll_full (ipm : IpMap) (ip : String) (t0 : Nat) (ts : List Nat)
    (h0 : ipm ip = none) (hts : ∀ u ∈ ts, u ≤ t0 + IP_WINDOW_MS) :
    (processAll ipm ip (t0 :: ts)).1 =
      (IpRes.next, false) :: expectedSteps 1 (t0 + IP_WINDOW_MS) ts := by
  simp only [processAll]
  rw [globalRateLimiter_first ipm ip t0 h0]
  dsimp only
  congr 1
  exact processAll_spec ip (t0 + IP_WINDOW_MS) ts _ 1
    (by rw [mapSet_self,
      decide_eq_false (by decide : ¬(MAX_REQUESTS_PER_IP < 1))]) hts

/-- Per-index view of `expectedSteps`. -/
lemma expectedSteps_get (R : Nat) :
    ∀ (ts : List Nat) (c i : Nat),
      (expectedSteps c R ts).get? i = (ts.get? i).map (fun t =>
        ((if MAX_REQUESTS_PER_IP < c + i + 1 then
            IpRes.blocked 429 "Too many requests. Please slow down."
              (jsCeilDiv (R - t) 1000)
          else IpRes.next),
          decide (c + i + 1 = MAX_REQUESTS_PER_IP + 1))) := by
  intro ts
  induction ts with
  | nil => intro c i; cases i <;> rfl
  | cons t ts ih =>
    intro c i
    cases i with
    | zero => rfl
    | succ j =>
      simp only [expectedSteps, List.get?_cons_succ]
      rw [ih (c + 1) j]
      rw [(by omega : c + 1 + j = c + (j + 1))]

/-- Ceiling of a remaining IP window in seconds is at most 60. -/
lemma jsCeilDiv_window_bound (a : Nat) (h : a ≤ IP_WINDOW_MS) :
    jsCeilDiv a 1000 ≤ 60 := by
  unfold jsCeilDiv
  have h2 : a + 1000 - 1 ≤ 60999 := by
    unfold IP_WINDOW_MS at h
    omega
  calc (a + 1000 - 1) / 1000 ≤ 60999 / 1000 := Nat.div_le_div_right h2
    _ = 60 := by norm_num

/-- Once the count has passed the maximum, the remaining expected steps
never carry the warning bit. -/
lemma expectedSteps_warnCount_zero (R : Nat) :
    ∀ (ts : List Nat) (c : Nat), MAX_REQUESTS_PER_IP < c →
      ((expectedSteps c R ts).map Prod.snd).count true = 0 := by
  intro ts
  induction ts with
  | nil => intro c hc; rfl
  | cons t ts ih =>
    intro c hc
    simp only [expectedSteps, List.map_cons]
    rw [decide_eq_false (by omega : ¬(c + 1 = MAX_REQUESTS_PER_IP + 1))]
    rw [List.count_cons]
    rw [ih (c + 1) (by omega)]
    simp

/-- At most one expected step carries the warning bit. -/
lemma expectedSteps_warnCount_le_one (R : Nat) :
    ∀ (ts : List Nat) (c : Nat),
      ((expectedSteps c R ts).map Prod.snd).count true ≤ 1 := by
  intro ts
  induction ts with
  | nil => intro c; simp [expectedSteps]
  | cons t ts ih =>
    intro c
    simp only [expectedSteps, List.map_cons]
    rw [List.count_cons]
    by_cases hc : c + 1 = MAX_REQUESTS_PER_IP + 1
    · rw [decide_eq_true hc]
      rw [expectedSteps_warnCount_zero R ts (c + 1) (by omega)]
      simp
    · rw [decide_eq_false hc]
      have := ih (c + 1)
      simp only [beq_iff_eq]
      simp only [if_neg (by decide : ¬(false = true))]
      omega

/-! ## Claim C3 -/

/-- C3: starting from a fresh IP counter, with every request of the run
inside the 60-second window anchored at the first request, each of the
first 20 requests is allowed and every request from the 21st on is
rejected with the 429 payload whose retryAfter is the ceiling of the
remaining window in seconds, hence at most 60. -/
theorem C3_ipGateWindow (ipm : IpMap) (ip : String) (t0 : Nat)
    (ts : List Nat) (i t : Nat) (h0 : ipm ip = none)
    (hts : ∀ u ∈ ts, t0 ≤ u ∧ u ≤ t0 + IP_WINDOW_MS)
    (hti : (t0 :: ts).get? i = some t) :
    (i < MAX_REQUESTS_PER_IP →
      ((processAll ipm ip (t0 :: ts)).1.map Prod.fst).get? i =
        some IpRes.next) ∧
    (MAX_REQUESTS_PER_IP ≤ i →
      ((processAll ipm ip (t0 :: ts)).1.map Prod.fst).get? i =
        some (IpRes.blocked 429 "Too many requests. Please slow down."
          (jsCeilDiv (t0 + IP_WINDOW_MS - t) 1000)) ∧
      jsCeilDiv (t0 + IP_WINDOW_MS - t) 1000 ≤ 60) := by
  have hM : MAX_REQUESTS_PER_IP = 20 := rfl
  rw [processAll_full ipm ip t0 ts h0 (fun u hu => (hts u hu).2)]
  cases i with
  | zero =>
    constructor
    · intro _; rfl
    · intro h; exact absurd h (by decide)
  | succ j =>
    rw [List.get?_cons_succ] at hti
    have hmem : t ∈ ts := List.get?_mem hti
    have ht0 : t0 ≤ t := (hts t hmem).1
    have hbound : t0 + IP_WINDOW_MS - t ≤ IP_WINDOW_MS := by omega
    simp only [List.map_cons, List.get?_cons_succ]
    rw [List.get?_map, expectedSteps_get (t0 + IP_WINDOW_MS) ts 1 j, hti]
    simp only [Option.map_some']
    constructor
    · intro hi
      rw [if_neg (by omega : ¬(MAX_REQUESTS_PER_IP < 1 + j + 1))]
    · intro hi
      rw [if_pos (by omega : MAX_REQUESTS_PER_IP < 1 + j + 1)]
      exact ⟨rfl, jsCeilDiv_window_bound _ hbound⟩

/-- C3 (witness): the 21st request (index 20) of a fresh-window run is
blocked with retryAfter 30 when sent halfway through the window. -/
theorem C3_witness :
    (((fun _ => none) : IpMap) "7.7.7.7" = none ∧
     (0 :: List.replicate 20 30000).get? 20 = some 30000 ∧
     MAX_REQUESTS_PER_IP ≤ 20) ∧
    (((processAll (fun _ => none) "7.7.7.7"
        (0 :: List.replicate 20 30000)).1.map Prod.fst).get? 20 =
      some (IpRes.blocked 429 "Too many requests. Please slow down."
        (jsCeilDiv (0 + IP_WINDOW_MS - 30000) 1000)) ∧
     jsCeilDiv (0 + IP_WINDOW_MS - 30000) 1000 ≤ 60) :=
  ⟨⟨rfl, by decide, by decide⟩,
    (C3_ipGateWindow (fun _ => none) "7.7.7.7" 0 (List.replicate 20 30000)
      20 30000 rfl (by decide) (by decide)).2 (by decide)⟩

/-! ## Claim C7 -/

/-- C7: over a fresh-window run of requests from one IP, at most one
warning is logged; the warning is logged exactly at the request that
first crosses the threshold (index 20, the 21st request) when it
exists, and every later request of the window is silent however many
blocked requests arrive. -/
theorem C7_singleWarningPerWindow (ipm : IpMap) (ip : String) (t0 : Nat)
    (ts : List Nat) (h0 : ipm ip = none)
    (hts : ∀ u ∈ ts, u ≤ t0 + IP_WINDOW_MS) :
    ((processAll ipm ip (t0 :: ts)).1.map Prod.snd).count true ≤ 1 ∧
    (∀ i b, MAX_REQUESTS_PER_IP < i →
      ((processAll ipm ip (t0 :: ts)).1.map Prod.snd).get? i = some b →
      b = false) ∧
    (MAX_REQUESTS_PER_IP ≤ ts.length →
      ((processAll ipm ip (t0 :: ts)).1.map Prod.snd).get?
        MAX_REQUESTS_PER_IP = some true) := by
  have hM : MAX_REQUESTS_PER_IP = 20 := rfl
  rw [processAll_full ipm ip t0 ts h0 hts]
  refine ⟨?_, ?_, ?_⟩
  · simp only [List.map_cons, List.count_cons]
    have := expectedSteps_warnCount_le_one (t0 + IP_WINDOW_MS) ts 1
    simp only [beq_iff_eq]
    simp only [if_neg (by decide : ¬(false = true))]
    omega
  · intro i b hi hb
    cases i with
    | zero => exact absurd hi (by omega)
    | succ j =>
      simp only [List.map_cons, List.get?_cons_succ] at hb
      rw [List.get?_map,
        expectedSteps_get (t0 + IP_WINDOW_MS) ts 1 j] at hb
      cases hj : ts.get? j with
      | none => rw [hj] at hb; cases hb
      | some u =>
        rw [hj] at hb
        simp only [Option.map_some'] at hb
        have hb2 := (Option.some.inj hb).symm
        rw [hb2]
        exact decide_eq_false (by omega : ¬(1 + j + 1 = MAX_REQUESTS_PER_IP + 1))
  · intro hlen
    rw [hM]
    simp only [List.map_cons, List.get?_cons_succ]
    cases hj : ts.get? 19 with
    | none =>
      have := List.get?_eq_none.1 hj
      omega
    | some u =>
      rw [List.get?_map, expectedSteps_get (t0 + IP_WINDOW_MS) ts 1 19, hj]
      simp only [Option.map_some']
      rw [decide_eq_true (by rw [hM] : 1 + 19 + 1 = MAX_REQUESTS_PER_IP + 1)]

/-- C7 (witness): 22 requests in one window from a fresh IP log exactly
one warning, at the 21st request, and the 22nd blocked request is
silent. -/
theorem C7_witness :
    (((fun _ => none) : IpMap) "8.8.8.8" = none ∧
     MAX_REQUESTS_PER_IP ≤ (List.replicate 21 (0 : Nat)).length) ∧
    (((processAll (fun _ => none) "8.8.8.8"
        (0 :: List.replicate 21 0)).1.map Prod.snd).count true ≤ 1 ∧
     ((processAll (fun _ => none) "8.8.8.8"
        (0 :: List.replicate 21 0)).1.map Prod.snd).get?
          MAX_REQUESTS_PER_IP = some true) :=
  ⟨⟨rfl, by decide⟩,
    (C7_singleWarningPerWindow (fun _ => none) "8.8.8.8" 0
      (List.replicate 21 0) rfl (by decide)).1,
    (C7_singleWarningPerWindow (fun _ => none) "8.8.8.8" 0
      (List.replicate 21 0) rfl (by decide)).2.2 (by decide)⟩
